import Mathlib

/-!
Verification development for the EvoMind agent system.

Shallow embedding of the core components — tool registry
(`evomind/registry/tool_registry.py`), static validator
(`evomind/codegen/validators.py`), sandbox executor
(`evomind/sandbox/executor.py`) and agent controller/state
(`evomind/agent/controller.py`, `evomind/agent/state.py`) — together with
theorems settling the specification's testable properties.

Modelling conventions:
* Python `float` quantities (scores, success rates, confidences) are
  modelled as `ℚ`; the arithmetic the code performs on them is exact in
  the rationals.
* Python strings are Lean `String`s; the handful of string operations the
  code uses (`lower`, substring `in`, `split('.')[0]`, `replace(' ', '_')`,
  `strip`) are defined below over the underlying character lists so that
  all definitions evaluate by kernel reduction.
* Python dicts used as ordered key/value stores are association lists;
  assignment replaces the first binding in place or appends, matching
  insertion-ordered dict semantics.
* Wall-clock timestamps are inputs (`now` parameters) rather than effects;
  per-transition timestamps, logging and on-disk persistence
  (`_save_tool`, `_load_registry`) are I/O side channels that no claim
  depends on and are not modelled.
* Effectful collaborators (process launch, filesystem, LLM planner and
  code generator) are modelled as explicit environments whose fields give
  the outcome of each external interaction; `Except String` marks
  interactions that may raise, carrying the exception message.
-/

namespace EvoMind

/-! ### String helpers (kernel-evaluable counterparts of the Python string ops) -/

/-- Python `str.lower()` (character-wise lowering). -/
def lowerStr (s : String) : String := ⟨s.data.map Char.toLower⟩

/-- Does the first character list occur as a leading segment of the second? -/
def listStartsWith : List Char → List Char → Bool
  | [], _ => true
  | _ :: _, [] => false
  | a :: as, b :: bs => a == b && listStartsWith as bs

/-- Does the first character list occur contiguously inside the second? -/
def listContainsSeq : List Char → List Char → Bool
  | n, [] => n.isEmpty
  | n, b :: bs => listStartsWith n (b :: bs) || listContainsSeq n bs

/-- Python `needle in hay` on strings (contiguous substring test). -/
def strIn (needle hay : String) : Bool := listContainsSeq needle.data hay.data

/-- Python `module.split(".")[0]`: everything before the first dot. -/
def baseModule (m : String) : String := ⟨m.data.takeWhile (fun c => c ≠ '.')⟩

/-- Python `s.replace(" ", "_")` (single-character pattern). -/
def replSpaceUnderscore (s : String) : String :=
  ⟨s.data.map (fun c => if c = ' ' then '_' else c)⟩

/-- Python whitespace test used by `str.strip()`. -/
def isPySpace (c : Char) : Bool := c == ' ' || c == '\t' || c == '\n' || c == '\r'

/-- Python `s.strip()`. -/
def stripStr (s : String) : String :=
  ⟨(((s.data.dropWhile isPySpace).reverse).dropWhile isPySpace).reverse⟩

/-! ### Association lists: insertion-ordered Python dicts -/

/-- Python `d.get(k)`: value at the first binding of `k`, if any. -/
def alGet {α : Type} : List (String × α) → String → Option α
  | [], _ => none
  | (k', v) :: rest, k => if k' = k then some v else alGet rest k

/-- Python `d[k] = v`: replace the first binding of `k` in place, else append. -/
def alSet {α : Type} : List (String × α) → String → α → List (String × α)
  | [], k, v => [(k, v)]
  | (k', v') :: rest, k, v =>
    if k' = k then (k, v) :: rest else (k', v') :: alSet rest k v

/-! ### Tool registry (`evomind/registry/tool_registry.py`) -/

/-- The `ToolMetadata` dataclass, with its field defaults.  `created_at` has no
sensible default here because the Python default is `datetime.utcnow()`; it is
always set explicitly from a `now` argument. -/
structure ToolMetadata where
  id : String
  name : String
  version : String
  description : String
  owner : String := "system"
  io_spec : List (String × String) := []
  dependencies : List String := []
  network_scopes : List String := []
  fs_scopes : List String := []
  cpu_limit : Nat := 30
  memory_limit_mb : Nat := 512
  tests : List (List (String × String)) := []
  success_rate : ℚ := 1
  usage_count : Nat := 0
  created_at : String := ""
  deprecated : Bool := false
  deprecation_date : Option String := none
  tags : List String := []
deriving DecidableEq, Repr

/-- A tool artifact mapping.  The registry reads only its `"code"` key
(`artifact.get("code", "")`); remaining entries are carried opaquely. -/
structure Artifact where
  code : Option String := none
  extra : List (String × String) := []
deriving DecidableEq, Repr

/-- The caller-supplied `metadata` mapping passed to `register`, restricted to
the keys of the `ToolMetadata` dataclass; `none` models an absent key.
`register` reads only `name`, `description`, `io_spec` and `tags` via
`metadata.get(...)`. -/
structure MetaInput where
  name : Option String := none
  description : Option String := none
  owner : Option String := none
  io_spec : Option (List (String × String)) := none
  dependencies : Option (List String) := none
  network_scopes : Option (List String) := none
  fs_scopes : Option (List String) := none
  cpu_limit : Option Nat := none
  memory_limit_mb : Option Nat := none
  tests : Option (List (List (String × String))) := none
  success_rate : Option ℚ := none
  usage_count : Option Nat := none
  tags : Option (List String) := none
deriving DecidableEq, Repr

/-- In-memory registry state: the `tools` and `artifacts` dicts. -/
structure ToolRegistry where
  tools : List (String × ToolMetadata) := []
  artifacts : List (String × Artifact) := []
deriving DecidableEq, Repr

/-- `ToolRegistry.register`: builds `tool_id = name_version` (name defaulting
to `"tool"`), creates metadata carrying over `name`, `description`, `io_spec`
and `tags` (the remaining fields take dataclass defaults), stores metadata and
artifact, and returns the id. -/
def ToolRegistry.register (r : ToolRegistry) (artifact : Artifact)
    (metadata : MetaInput) (version : String) (now : String) :
    ToolRegistry × String :=
  let tool_id := metadata.name.getD "tool" ++ "_" ++ version
  let meta : ToolMetadata :=
    { id := tool_id
      name := metadata.name.getD ""
      version := version
      description := metadata.description.getD ""
      io_spec := metadata.io_spec.getD []
      tags := metadata.tags.getD []
      created_at := now }
  ({ r with
      tools := alSet r.tools tool_id meta
      artifacts := alSet r.artifacts tool_id artifact }, tool_id)

/-- One entry of the list returned by `ToolRegistry.search`. -/
structure SearchResult where
  id : String
  metadata : ToolMetadata
  artifact : Artifact
  score : ℚ
  tool_id : String
  code : String
deriving DecidableEq, Repr

/-- The text-match score `search` assigns to one metadata entry:
`0.5` if the lowered query occurs in the lowered name, plus `0.3` for the
description, plus `0.2` per matching tag. -/
def entryScore (query_lower : String) (meta : ToolMetadata) : ℚ :=
  let s0 : ℚ := 0
  let s1 := if strIn query_lower (lowerStr meta.name) then s0 + 5/10 else s0
  let s2 := if strIn query_lower (lowerStr meta.description) then s1 + 3/10 else s1
  meta.tags.foldl
    (fun s tag => if strIn query_lower (lowerStr tag) then s + 2/10 else s) s2

/-- One step of a stable descending sort by score: insert `x` before the first
element whose score does not exceed it (equal scores keep input order, as
Python's stable `list.sort(..., reverse=True)` does). -/
def insertDesc (x : SearchResult) : List SearchResult → List SearchResult
  | [] => [x]
  | y :: ys => if y.score ≤ x.score then x :: y :: ys else y :: insertDesc x ys

/-- Stable sort of search results by descending score. -/
def sortByScoreDesc : List SearchResult → List SearchResult
  | [] => []
  | x :: xs => insertDesc x (sortByScoreDesc xs)

/-- The body of `search`'s loop over `self.tools.items()`: a deprecated entry
is skipped, a positive-scoring entry yields its result dict (with the artifact
looked up, defaulting to the empty dict), anything else is dropped. -/
def searchEntry (artifacts : List (String × Artifact)) (query_lower : String)
    (p : String × ToolMetadata) : Option SearchResult :=
  if p.2.deprecated then none
  else
    let score := entryScore query_lower p.2
    if 0 < score then
      let artifact := (alGet artifacts p.1).getD {}
      some { id := p.1, metadata := p.2, artifact := artifact, score := score,
             tool_id := p.1, code := artifact.code.getD "" }
    else none

/-- `ToolRegistry.search`: skip deprecated entries, score the rest against the
lowered query, keep the entries with positive score, sort by descending score
(stable), truncate to `limit`. -/
def ToolRegistry.search (r : ToolRegistry) (query : String) (limit : Nat := 10) :
    List SearchResult :=
  let results := r.tools.filterMap (searchEntry r.artifacts (lowerStr query))
  (sortByScoreDesc results).take limit

/-- The record returned by `ToolRegistry.get`. -/
structure GetResult where
  id : String
  metadata : ToolMetadata
  artifact : Artifact
  tool_id : String
  code : String
deriving DecidableEq, Repr

/-- `ToolRegistry.get`: the full capability record for an id, or `none` when
the id is unknown.  No deprecation check is made. -/
def ToolRegistry.get (r : ToolRegistry) (tool_id : String) : Option GetResult :=
  match alGet r.tools tool_id with
  | none => none
  | some meta =>
    let artifact := (alGet r.artifacts tool_id).getD {}
    some { id := tool_id, metadata := meta, artifact := artifact,
           tool_id := tool_id, code := artifact.code.getD "" }

/-- `ToolRegistry.update_stats`: increment `usage_count` and apply the
exponential moving average with `alpha = 0.1` to `success_rate`
(`alpha*1 + (1-alpha)*rate` on success, `alpha*0 + (1-alpha)*rate` on
failure).  Unknown ids are ignored. -/
def ToolRegistry.update_stats (r : ToolRegistry) (tool_id : String)
    (success : Bool) : ToolRegistry :=
  match alGet r.tools tool_id with
  | none => r
  | some meta =>
    let meta := { meta with usage_count := meta.usage_count + 1 }
    let alpha : ℚ := 1/10
    let meta :=
      if success then
        { meta with success_rate := alpha * 1 + (1 - alpha) * meta.success_rate }
      else
        { meta with success_rate := alpha * 0 + (1 - alpha) * meta.success_rate }
    { r with tools := alSet r.tools tool_id meta }

/-- `ToolRegistry.deprecate`: mark the entry deprecated with the deprecation
date, returning `true`; `false` when the id is unknown. -/
def ToolRegistry.deprecate (r : ToolRegistry) (tool_id : String) (now : String) :
    ToolRegistry × Bool :=
  match alGet r.tools tool_id with
  | none => (r, false)
  | some meta =>
    let meta := { meta with deprecated := true, deprecation_date := some now }
    ({ r with tools := alSet r.tools tool_id meta }, true)

/-- `ToolRegistry.list_all`: every entry, skipping deprecated ones unless
`include_deprecated` is set. -/
def ToolRegistry.list_all (r : ToolRegistry) (include_deprecated : Bool := false) :
    List (String × ToolMetadata) :=
  r.tools.filter (fun p => include_deprecated || !p.2.deprecated)

/-! ### Static validator (`evomind/codegen/validators.py`) -/

/-- One validation finding. -/
structure Finding where
  severity : String
  category : String
  message : String
  line : Option Nat := none
deriving DecidableEq, Repr

/-- `ValidationResult`: findings, blockers, and the pass flag. -/
structure ValidationResult where
  passed : Bool := true
  findings : List Finding := []
  blockers : List Finding := []
deriving DecidableEq, Repr

/-- `ValidationResult.add_finding`: append the finding; severities `critical`
and `high` are blockers and clear `passed`. -/
def ValidationResult.add_finding (r : ValidationResult)
    (severity category message : String) (line : Option Nat := none) :
    ValidationResult :=
  let f : Finding :=
    { severity := severity, category := category, message := message, line := line }
  let r := { r with findings := r.findings ++ [f] }
  if severity = "critical" ∨ severity = "high" then
    { r with blockers := r.blockers ++ [f], passed := false }
  else r

/-- The nodes of `ast.walk` the validator inspects: plain imports (with the
dotted names of all aliases), from-imports (module may be `None` for relative
imports), calls whose callee is a plain name (`none` otherwise), attribute
accesses, and everything else. -/
inductive PyNode where
  | importName (names : List String) (lineno : Nat)
  | importFrom (module : Option String) (lineno : Nat)
  | call (funcName : Option String) (lineno : Nat)
  | attributeNode (attr : String) (lineno : Nat)
  | other
deriving DecidableEq, Repr

/-- A candidate code string together with the outcome of `ast.parse`: either a
syntax error (message and line) or the walk of the parsed tree. -/
structure PyCode where
  text : String
  parsed : Except (String × Option Nat) (List PyNode)

/-- `StaticValidator` construction state. -/
structure StaticValidator where
  allow_network : Bool := false
deriving DecidableEq, Repr

/-- The always-dangerous module set: never allowed regardless of network
permission. -/
def StaticValidator.always_dangerous : List String :=
  ["os", "subprocess", "ctypes", "multiprocessing", "threading",
   "__import__", "eval", "exec", "compile"]

/-- Conditionally-allowed network modules. -/
def StaticValidator.network_imports : List String :=
  ["socket", "http", "urllib", "requests", "httpx"]

/-- `dangerous_imports`: the always-dangerous set, extended by the network
modules when network access is not allowed. -/
def StaticValidator.dangerous_imports (v : StaticValidator) : List String :=
  if v.allow_network then StaticValidator.always_dangerous
  else StaticValidator.always_dangerous ++ StaticValidator.network_imports

/-- `allowed_imports`: the allow-list, extended by the network modules when
network access is allowed. -/
def StaticValidator.allowed_imports (v : StaticValidator) : List String :=
  let base := ["json", "re", "math", "datetime", "typing", "dataclasses",
               "collections", "itertools", "functools", "string", "statistics",
               "decimal", "fractions"]
  if v.allow_network then base ++ StaticValidator.network_imports else base

/-- `StaticValidator._check_import`: the base module (before the first dot) is
checked against the dangerous list (`critical/policy`) and the allow-list
(`medium/policy` when outside it). -/
def StaticValidator.check_import (v : StaticValidator) (module : String)
    (result : ValidationResult) (line : Nat) : ValidationResult :=
  let base_module := baseModule module
  if base_module ∈ v.dangerous_imports then
    result.add_finding "critical" "policy" ("Forbidden import: " ++ module) (some line)
  else if base_module ∉ v.allowed_imports then
    result.add_finding "medium" "policy" ("Import requires review: " ++ module) (some line)
  else result

/-- The policy gate's action on one walked node. -/
def StaticValidator.policyNode (v : StaticValidator) (result : ValidationResult) :
    PyNode → ValidationResult
  | .importName names lineno =>
    names.foldl (fun res nm => v.check_import nm res lineno) result
  | .importFrom (some m) lineno => v.check_import m result lineno
  | .importFrom none _ => result
  | .call (some fid) lineno =>
    if fid ∈ ["eval", "exec", "compile", "__import__"] then
      result.add_finding "critical" "policy"
        ("Forbidden function call: " ++ fid) (some lineno)
    else result
  | .call none _ => result
  | .attributeNode _ _ => result
  | .other => result

/-- `StaticValidator._validate_policy`: walk every node through the policy
gate. -/
def StaticValidator.validate_policy (v : StaticValidator) (nodes : List PyNode)
    (result : ValidationResult) : ValidationResult :=
  nodes.foldl v.policyNode result

/-- The security scan's action on one walked node: file-open calls and
network-looking attribute accesses are `high/security`. -/
def securityNode (result : ValidationResult) : PyNode → ValidationResult
  | .call (some fid) lineno =>
    if fid = "open" ∨ fid = "file" then
      result.add_finding "high" "security"
        "File operations detected - ensure proper sandboxing" (some lineno)
    else result
  | .attributeNode attr lineno =>
    if attr ∈ ["urlopen", "get", "post", "request"] then
      result.add_finding "high" "security" "Network operation detected" (some lineno)
    else result
  | _ => result

/-- `StaticValidator._validate_security`. -/
def validate_security (nodes : List PyNode) (result : ValidationResult) :
    ValidationResult :=
  nodes.foldl securityNode result

/-- `StaticValidator._validate_safety`: raw-text heuristics (length bound,
`while True:` without `break`). -/
def validate_safety (text : String) (result : ValidationResult) :
    ValidationResult :=
  let result :=
    if 10000 < text.data.length then
      result.add_finding "medium" "safety"
        "Code is very long, may indicate complexity issues"
    else result
  if strIn "while True:" text && !(strIn "break" text) then
    result.add_finding "high" "safety" "Potential infinite loop detected"
  else result

/-- `StaticValidator.validate`: parse check (short-circuiting on syntax
error), then policy gate, security scan and safety heuristics. -/
def StaticValidator.validate (v : StaticValidator) (code : PyCode) :
    ValidationResult :=
  let result : ValidationResult := {}
  match code.parsed with
  | .error (msg, lineno) =>
    result.add_finding "critical" "syntax" ("Syntax error: " ++ msg) lineno
  | .ok nodes =>
    let result := v.validate_policy nodes result
    let result := validate_security nodes result
    validate_safety code.text result

/-! ### Sandbox executor (`evomind/sandbox/executor.py`, `policies.py`) -/

/-- The `ResourcePolicy` dataclass. -/
structure ResourcePolicy where
  cpu_time_limit : Nat := 30
  wall_time_limit : Nat := 60
  memory_limit_mb : Nat := 512
  disk_limit_mb : Nat := 100
  max_processes : Nat := 1
  max_file_size_mb : Nat := 10
deriving DecidableEq, Repr

/-- The `SecurityPolicy` dataclass (not consulted by the executor's
execution path beyond construction). -/
structure SecurityPolicy where
  network_enabled : Bool := false
  allowed_hosts : List String := []
  filesystem_readonly : Bool := true
  allowed_write_paths : List String := ["/tmp"]
  allow_subprocess : Bool := false
  allow_imports : List String :=
    ["json", "re", "math", "datetime", "typing", "dataclasses", "collections"]
deriving DecidableEq, Repr

/-- The combined `SandboxPolicy`. -/
structure SandboxPolicy where
  resource : ResourcePolicy := {}
  security : SecurityPolicy := {}
deriving DecidableEq, Repr

/-- Values held in the JSON-shaped dicts flowing through the executor and
controller. -/
inductive PyVal where
  | str (s : String)
  | int (n : Int)
  | bool (b : Bool)
  | null
  | list (xs : List PyVal)
  | dict (entries : List (String × PyVal))

/-- A JSON-shaped Python dict. -/
abbrev PyDict := List (String × PyVal)

/-- Python `d.get(k)` on a JSON-shaped dict. -/
def pyGet : PyDict → String → Option PyVal
  | [], _ => none
  | (k', v) :: rest, k => if k' = k then some v else pyGet rest k

/-- Outcome of `_prepare_environment`: `mkdtemp` may raise before the
directory exists, writing the tool code may raise after it exists, or both
succeed. -/
inductive PrepOutcome where
  | mkdtempFails (msg : String)
  | writeFails (msg : String)
  | ok
deriving DecidableEq, Repr

/-- Outcome of launching and awaiting the sandboxed process inside
`_execute_with_limits`: it finishes within `wall_time_limit` with an exit code
and captured output, it exceeds the limit (`TimeoutExpired`; the output fields
are what `communicate()` collects after `kill()`), or some call in the guarded
block raises. -/
inductive ProcOutcome where
  | completes (returncode : Int) (stdout stderr : String)
  | timesOut (stdout stderr : String)
  | raises (msg : String)
deriving DecidableEq, Repr

/-- The effectful collaborators of one `SandboxExecutor.execute` call:
filesystem preparation, script creation (`Except.error` carries the raised
exception's message), process behaviour, `json.loads` on the captured stdout
(`none` models `JSONDecodeError`), and whether `shutil.rmtree` succeeds. -/
structure SandboxEnv where
  prep : PrepOutcome
  createScript : Except String Unit
  proc : ProcOutcome
  jsonLoads : String → Option PyDict
  rmtreeOk : Bool

/-- Result of `_execute_with_limits` together with whether the process was
forcibly killed. -/
structure RunResult where
  output : PyDict
  killed : Bool

/-- `SandboxExecutor._execute_with_limits`: timeout produces the `timeout`
dict after killing the process; a clean zero exit with non-empty stdout is
parsed as JSON (falling back to a wrapped success dict); a non-zero exit or
empty stdout is an error dict; any exception in the guarded block is caught
and becomes an error dict carrying the message. -/
def executeWithLimits (env : SandboxEnv) (policy : SandboxPolicy) : RunResult :=
  let _wall := policy.resource.wall_time_limit
  match env.proc with
  | .raises msg =>
    { output := [("status", .str "error"), ("error", .str msg)], killed := false }
  | .timesOut out err =>
    { output := [("status", .str "timeout"), ("error", .str "Execution timed out"),
                 ("stdout", .str out), ("stderr", .str err)], killed := true }
  | .completes rc out err =>
    if rc = 0 ∧ out ≠ "" then
      match env.jsonLoads (stripStr out) with
      | some d => { output := d, killed := false }
      | none =>
        { output := [("status", .str "success"),
                     ("result", .dict [("output", .str out)]),
                     ("stdout", .str out), ("stderr", .str err)], killed := false }
    else
      { output := [("status", .str "error"),
                   ("error", .str ("Process exited with code " ++ toString rc)),
                   ("stdout", .str out), ("stderr", .str err)], killed := false }

/-- Observable outcome of one `SandboxExecutor.execute` call: the returned
result dict, whether the process was killed, whether the per-execution
directory came into existence, whether `_cleanup` was reached, and whether the
directory was actually removed. -/
structure ExecOutcome where
  result : PyDict
  killed : Bool
  dirCreated : Bool
  cleanupAttempted : Bool
  dirRemoved : Bool

/-- `SandboxExecutor.execute`: prepare the environment, create the execution
script, run with limits, clean up, return; any exception raised inside the
guarded block is caught and converted to an error dict
(`{"status": "error", "error": str(e), "stdout": "", "stderr": str(e)}`).
`_cleanup` is reached only on the path where preparation and script creation
return normally (`_execute_with_limits` catches its own exceptions); `rmtree`
failures inside `_cleanup` are swallowed. -/
def Sandbox.execute (env : SandboxEnv) (policy : SandboxPolicy) : ExecOutcome :=
  match env.prep with
  | .mkdtempFails msg =>
    { result := [("status", .str "error"), ("error", .str msg),
                 ("stdout", .str ""), ("stderr", .str msg)],
      killed := false, dirCreated := false, cleanupAttempted := false,
      dirRemoved := false }
  | .writeFails msg =>
    { result := [("status", .str "error"), ("error", .str msg),
                 ("stdout", .str ""), ("stderr", .str msg)],
      killed := false, dirCreated := true, cleanupAttempted := false,
      dirRemoved := false }
  | .ok =>
    match env.createScript with
    | .error msg =>
      { result := [("status", .str "error"), ("error", .str msg),
                   ("stdout", .str ""), ("stderr", .str msg)],
        killed := false, dirCreated := true, cleanupAttempted := false,
        dirRemoved := false }
    | .ok _ =>
      let run := executeWithLimits env policy
      { result := run.output, killed := run.killed, dirCreated := true,
        cleanupAttempted := true, dirRemoved := env.rmtreeOk }

/-! ### Agent state and controller (`evomind/agent/state.py`, `controller.py`) -/

/-- The controller's state-machine states. -/
inductive StateType where
  | idle
  | plan
  | select_tool
  | design_tool
  | validate
  | execute
  | verify
  | respond
  | learn
  | error
deriving DecidableEq, Repr

/-- One recorded state transition (the controller always passes empty
transition metadata; the wall-clock timestamp is not modelled). -/
structure StateTransition where
  from_state : StateType
  to_state : StateType
deriving DecidableEq, Repr

/-- One feedback entry (`category` and the detail dict; the wall-clock
timestamp is not modelled). -/
structure FeedbackEntry where
  category : String
  details : PyDict

/-- An incoming request. -/
structure Request where
  task : String := ""

/-- A plan as consumed by the controller: `intent`, `io_spec`, `args`,
`success_criteria` and `confidence`. -/
structure Plan where
  intent : String := ""
  io_spec : List (String × String) := []
  args : PyDict := []
  success_criteria : List (String × String) := []
  confidence : ℚ := 0

/-- The `AgentState` dataclass. -/
structure AgentState where
  current_state : StateType := .idle
  request : Option Request := none
  plan : Option Plan := none
  selected_tool : Option PyVal := none
  execution_result : Option PyDict := none
  feedback : List FeedbackEntry := []
  history : List StateTransition := []
  retry_count : Nat := 0
  max_retries : Nat := 3

/-- `AgentState.transition`: append the transition and move to the new
state. -/
def AgentState.transition (s : AgentState) (to_state : StateType) : AgentState :=
  { s with
      history := s.history ++ [{ from_state := s.current_state, to_state := to_state }]
      current_state := to_state }

/-- `AgentState.add_feedback`. -/
def AgentState.add_feedback (s : AgentState) (category : String)
    (details : PyDict) : AgentState :=
  { s with feedback := s.feedback ++ [{ category := category, details := details }] }

/-- `AgentState.can_retry`: retry is allowed while `retry_count < max_retries`. -/
def AgentState.can_retry (s : AgentState) : Bool :=
  s.retry_count < s.max_retries

/-- `AgentState.increment_retry`. -/
def AgentState.increment_retry (s : AgentState) : AgentState :=
  { s with retry_count := s.retry_count + 1 }

/-- `AgentState.reset`: clear the per-request fields (`history` is kept). -/
def AgentState.reset (s : AgentState) : AgentState :=
  { s with
      current_state := .idle, request := none, plan := none,
      selected_tool := none, execution_result := none, feedback := [],
      retry_count := 0 }

/-- `ReflexionMemory.should_reflect`: reflect iff some feedback entry is
categorized `bad_result` or `error`. -/
def should_reflect (feedback : List FeedbackEntry) : Bool :=
  feedback.any (fun f => f.category = "bad_result" ∨ f.category = "error")

/-- The capability specification `_synthesize_tool_spec` builds from a plan. -/
structure ToolSpec where
  name : String
  description : String
  io_spec : List (String × String)
  timeout : Nat
  memory_mb : Nat
  no_network : Bool
  tests : List PyDict

/-- `AgentController._synthesize_tool_spec`. -/
def synthesize_tool_spec (plan : Plan) : ToolSpec :=
  { name := "tool_" ++ replSpaceUnderscore plan.intent
    description := plan.intent
    io_spec := plan.io_spec
    timeout := 30
    memory_mb := 512
    no_network := true
    tests := [[("name", PyVal.str "test_basic"), ("input", PyVal.dict []),
               ("expected", PyVal.str "success")]] }

/-- A controller response, flattening the three response dict shapes
(`success`, `degraded`, `error`) into one record with a `status` field. -/
structure Response where
  status : String
  error : Option String := none
  message : Option String := none
  result : Option PyDict := none
  tool_used : Option PyVal := none
  feedback : List FeedbackEntry := []
  partial_result : Option PyDict := none
  retries : Option Nat := none
  state_history : Option (List StateType) := none

/-- `AgentController._graceful_degrade`. -/
def gracefulDegrade (st : AgentState) : Response :=
  { status := "degraded", message := some "Unable to complete request fully",
    feedback := st.feedback, partial_result := st.execution_result }

/-- `AgentController._respond`. -/
def respondSuccess (st : AgentState) (result : PyDict) : Response :=
  { status := "success", result := some result, tool_used := st.selected_tool,
    retries := some st.retry_count,
    state_history := some (st.history.map (fun t => t.to_state)) }

/-- The structured error response built in `handle_request`'s exception
handler. -/
def errorResponse (e : String) : Response :=
  { status := "error", error := some e,
    message := some "An unexpected error occurred" }

/-- Pipeline activities the controller can perform during one
`handle_request` call, for the execution trace. -/
inductive PStep where
  | planning
  | searching
  | synthesis
  | execution
  | verification
  | learning
deriving DecidableEq, Repr

/-- The effectful collaborators one `handle_request` call consults: the two
planners, registry search, the synthesis pipeline, the sandbox executor and
the result validator.  Each may raise (`Except.error` carries the message);
`should_reflect` is the pure repository function above.  The behaviour of
each collaborator is settled separately against its own source. -/
structure ControllerEnv where
  confidence_threshold : ℚ := 7/10
  reactPlan : Request → Except String Plan
  totPlan : Request → Except String Plan
  searchTools : String → List (String × String) → Except String (List PyDict)
  createTool : ToolSpec → Except String PyDict
  execTool : PyDict → PyDict → Except String PyDict
  checkResult : PyDict → List (String × String) → Except String Bool

/-- `AgentController._plan`: the reactive plan, escalated to the exploratory
planner when its confidence is below the threshold. -/
def planPhase (env : ControllerEnv) (req : Request) :
    Except String Plan × List PStep :=
  match env.reactPlan req with
  | .error e => (.error e, [.planning])
  | .ok p =>
    if p.confidence < env.confidence_threshold then
      (env.totPlan req, [.planning, .planning])
    else (.ok p, [.planning])

/-- `AgentController._execute_tool`: transition to `execute` and run the tool
in the sandbox; an exception becomes `execution_error` feedback and an absent
result. -/
def executeToolStep (env : ControllerEnv) (st : AgentState) (tool : PyDict)
    (plan : Plan) : AgentState × Option PyDict :=
  let st := st.transition .execute
  match env.execTool tool plan.args with
  | .ok res => (st, some res)
  | .error e => (st.add_feedback "execution_error" [("error", .str e)], none)

/-- Python `{"result": result}` with `result` possibly `None`. -/
def optDictVal : Option PyDict → PyVal
  | some d => .dict d
  | none => .null

/-- The verification tail of `handle_request` (steps 6–8): verify the result,
respond on success, otherwise record `bad_result` feedback, possibly learn and
retry (via the `retry` continuation), else degrade gracefully.  The validator
is only consulted when a result exists (Python's short-circuiting
`if result and self.validator.validate_result(...)`). -/
def afterResult (env : ControllerEnv) (st : AgentState) (plan : Plan)
    (result : Option PyDict) (trace : List PStep)
    (retry : AgentState → Response × AgentState × List PStep) :
    Response × AgentState × List PStep :=
  let st := st.transition .verify
  let badResult := fun (st : AgentState) (trace : List PStep) =>
    let st := st.add_feedback "bad_result" [("result", optDictVal result)]
    if should_reflect st.feedback then
      let st := st.transition .learn
      let trace := trace ++ [PStep.learning]
      if st.can_retry then
        let st := st.increment_retry
        let out := retry st
        (out.1, out.2.1, trace ++ out.2.2)
      else (gracefulDegrade st, st, trace)
    else (gracefulDegrade st, st, trace)
  match result with
  | some res =>
    match env.checkResult res plan.success_criteria with
    | .error e => (errorResponse e, st.transition .error, trace ++ [.verification])
    | .ok true =>
      let st := { st with execution_result := some res }
      let st := st.transition .respond
      (respondSuccess st res, st, trace ++ [.verification])
    | .ok false => badResult st (trace ++ [.verification])
  | none => badResult st trace

/-- `AgentController.handle_request`.  Returns the response, the final agent
state and the trace of pipeline activities performed.  The recursion of the
Python retry (`return self.handle_request(request)`) is driven by `fuel`;
since each retry increments `retry_count` and the entry guard stops at
`max_retries`, any `fuel > max_retries - retry_count` makes the zero-fuel
branch unreachable. -/
def handleRequest (env : ControllerEnv) (fuel : Nat) (st : AgentState)
    (req : Request) : Response × AgentState × List PStep :=
    if st.max_retries ≤ st.retry_count then (gracefulDegrade st, st, [])
    else
      match fuel with
      | 0 => (gracefulDegrade st, st, [])
      | fuel' + 1 =>
        let st := if st.retry_count = 0 then st.reset else st
        let st := { st with request := some req }
        let st := st.transition .plan
        match planPhase env req with
        | (.error e, ptrace) =>
          (errorResponse e, st.transition .error, ptrace)
        | (.ok plan, ptrace) =>
          let st := { st with plan := some plan }
          match env.searchTools plan.intent plan.io_spec with
          | .error e =>
            (errorResponse e, st.transition .error, ptrace ++ [.searching])
          | .ok candidates =>
            let trace := ptrace ++ [PStep.searching]
            if 0 < candidates.length then
              let st := st.transition .select_tool
              let tool := candidates.headD []
              let st := { st with selected_tool := pyGet tool "id" }
              let out := executeToolStep env st tool plan
              afterResult env out.1 plan out.2 (trace ++ [.execution])
                (fun st2 => handleRequest env fuel' st2 req)
            else
              let st := st.transition .design_tool
              let spec := synthesize_tool_spec plan
              let st := st.transition .validate
              match env.createTool spec with
              | .error e =>
                (errorResponse e, st.transition .error, trace ++ [.synthesis])
              | .ok tool =>
                let trace := trace ++ [PStep.synthesis]
                match pyGet tool "status" with
                | some (.str s) =>
                  if s = "READY" then
                    let st := { st with selected_tool := pyGet tool "tool_id" }
                    let out := executeToolStep env st tool plan
                    afterResult env out.1 plan out.2 (trace ++ [.execution])
                      (fun st2 => handleRequest env fuel' st2 req)
                  else
                    let st := st.add_feedback "tool_creation_failed" tool
                    afterResult env st plan none trace
                      (fun st2 => handleRequest env fuel' st2 req)
                | _ =>
                  let st := st.add_feedback "tool_creation_failed" tool
                  afterResult env st plan none trace
                    (fun st2 => handleRequest env fuel' st2 req)

/-! ### Abbreviations used in theorem statements -/

/-- Does a walked node import a module whose base module is in the
always-dangerous set? -/
def isAlwaysDangerousImport : PyNode → Bool
  | .importName names _ =>
    names.any (fun nm => baseModule nm ∈ StaticValidator.always_dangerous)
  | .importFrom (some m) _ => baseModule m ∈ StaticValidator.always_dangerous
  | _ => false

/-! ### Concrete instances used by witnesses and counterexamples -/

/-- A sample non-deprecated tool metadata entry. -/
def meta1 : ToolMetadata :=
  { id := "csv_parse_1.0", name := "csv_parse", version := "1.0",
    description := "Parse CSV files", created_at := "2024-01-01T00:00:00" }

/-- A sample artifact. -/
def art1 : Artifact := { code := some "def parse(args): return args" }

/-- A one-tool registry whose only entry is not deprecated. -/
def r1 : ToolRegistry :=
  { tools := [("csv_parse_1.0", meta1)], artifacts := [("csv_parse_1.0", art1)] }

/-- The search record `r1` produces for its sole entry on the empty query
(both the name and the description contain the empty substring, no tags
match). -/
def res1 : SearchResult :=
  { id := "csv_parse_1.0", metadata := meta1, artifact := art1, score := 8/10,
    tool_id := "csv_parse_1.0", code := "def parse(args): return args" }

/-- A registration mapping that carries an explicit `owner`. -/
def minput8 : MetaInput := { name := some "csvtool", owner := some "alice" }

/-- Registering `minput8` into an empty registry. -/
def reg8 : ToolRegistry × String :=
  ToolRegistry.register {} { code := some "def run(args): return args" }
    minput8 "1.0" "2024-01-01T00:00:00"

/-- A validator with default construction (network disallowed). -/
def validator0 : StaticValidator := {}

/-- A code sample importing `os`, with the walk of its parse tree. -/
def code2 : PyCode :=
  { text := "import os", parsed := .ok [.importName ["os"] 1] }

/-- The default sandbox policy. -/
def policy0 : SandboxPolicy := {}

/-- A sandbox run where `mkdtemp` raises while preparing the environment. -/
def env5 : SandboxEnv :=
  { prep := .mkdtempFails "Permission denied", createScript := .ok (),
    proc := .raises "never reached", jsonLoads := fun _ => none,
    rmtreeOk := true }

/-- A sandbox run where writing the execution script raises after the
per-execution directory exists. -/
def env6 : SandboxEnv :=
  { prep := .ok, createScript := .error "No space left on device",
    proc := .raises "never reached", jsonLoads := fun _ => none,
    rmtreeOk := true }

/-- A sandbox run whose process exceeds the wall-time limit. -/
def env7 : SandboxEnv :=
  { prep := .ok, createScript := .ok (),
    proc := .timesOut "partial stdout" "partial stderr",
    jsonLoads := fun _ => none, rmtreeOk := true }

/-- A controller environment with inert collaborators. -/
def stubEnv : ControllerEnv :=
  { reactPlan := fun _ => .ok {}
    totPlan := fun _ => .ok {}
    searchTools := fun _ _ => .ok []
    createTool := fun _ => .error "code generation unavailable"
    execTool := fun _ _ => .error "sandbox unavailable"
    checkResult := fun _ _ => .ok false }

/-- An agent state whose retries are exhausted (`retry_count = max_retries = 3`). -/
def st3 : AgentState := { retry_count := 3 }

/-- A sample request. -/
def req0 : Request := { task := "parse json" }

/-! ## Helper lemmas -/

theorem alGet_alSet_self {α : Type} (l : List (String × α)) (k : String) (v : α) :
    alGet (alSet l k v) k = some v := by
  induction l with
  | nil => simp [alSet, alGet]
  | cons p rest ih =>
    obtain ⟨k', v'⟩ := p
    by_cases h : k' = k
    · simp [alSet, alGet, h]
    · simp [alSet, alGet, h, ih]

theorem mem_alSet_of_alGet_some {α : Type} {l : List (String × α)} {k : String}
    {m : α} (v : α) (h : alGet l k = some m) : (k, v) ∈ alSet l k v := by
  induction l with
  | nil => simp [alGet] at h
  | cons p rest ih =>
    obtain ⟨k', v'⟩ := p
    by_cases hk : k' = k
    · simp [alSet, hk]
    · simp [alGet, hk] at h
      simp [alSet, hk, ih h]

theorem listContainsSeq_nil (l : List Char) : listContainsSeq [] l = true := by
  cases l <;> simp [listContainsSeq, listStartsWith, List.isEmpty]

theorem strIn_empty (s : String) : strIn "" s = true := listContainsSeq_nil s.data

theorem lowerStr_empty : lowerStr "" = "" := rfl

theorem foldl_tag_ge (c : String → Bool) (tags : List String) (base : ℚ) :
    base ≤ tags.foldl (fun s tag => if c tag then s + 2/10 else s) base := by
  induction tags generalizing base with
  | nil => simp
  | cons t ts ih =>
    simp only [List.foldl]
    by_cases h : c t
    · simp only [h, if_true]
      exact le_trans (by linarith) (ih (base + 2/10))
    · simp only [h, if_false]
      exact ih base

theorem foldl_const_add_ge (tags : List String) (base : ℚ) :
    base ≤ tags.foldl (fun s _ => s + 2/10) base := by
  induction tags generalizing base with
  | nil => simp
  | cons t ts ih =>
    simp only [List.foldl]
    exact le_trans (by linarith) (ih (base + 2/10))

theorem entryScore_empty_pos (meta : ToolMetadata) : 0 < entryScore "" meta := by
  unfold entryScore
  simp only [strIn_empty, if_true]
  calc (0:ℚ) < 0 + 5/10 + 3/10 := by norm_num
  _ ≤ _ := foldl_const_add_ge meta.tags _

theorem length_insertDesc (x : SearchResult) (l : List SearchResult) :
    (insertDesc x l).length = l.length + 1 := by
  induction l with
  | nil => rfl
  | cons y ys ih =>
    by_cases h : y.score ≤ x.score
    · simp [insertDesc, h]
    · simp [insertDesc, h, ih]

theorem length_sortByScoreDesc (l : List SearchResult) :
    (sortByScoreDesc l).length = l.length := by
  induction l with
  | nil => rfl
  | cons x xs ih => simp [sortByScoreDesc, length_insertDesc, ih]

theorem mem_insertDesc {x y : SearchResult} {l : List SearchResult} :
    y ∈ insertDesc x l ↔ y = x ∨ y ∈ l := by
  induction l with
  | nil => simp [insertDesc]
  | cons z zs ih =>
    by_cases h : z.score ≤ x.score
    · simp only [insertDesc, h, if_true, List.mem_cons]
    · simp only [insertDesc, h, if_false, List.mem_cons, ih]
      tauto

theorem mem_sortByScoreDesc {y : SearchResult} {l : List SearchResult} :
    y ∈ sortByScoreDesc l ↔ y ∈ l := by
  induction l with
  | nil => simp [sortByScoreDesc]
  | cons x xs ih =>
    simp only [sortByScoreDesc, mem_insertDesc, ih, List.mem_cons]

/-! ## Claim C9: search never returns deprecated entries -/

/-- Claim C9: for every registry state and every query, no entry returned by
`search` is deprecated; since this holds for arbitrary states it holds in
particular after any sequence of `register`, `update_stats` and `deprecate`
operations. -/
theorem search_never_returns_deprecated (r : ToolRegistry) (query : String)
    (limit : Nat) (res : SearchResult) (h : res ∈ r.search query limit) :
    res.metadata.deprecated = false := by
  unfold ToolRegistry.search at h
  have h1 := List.take_subset limit _ h
  rw [mem_sortByScoreDesc] at h1
  obtain ⟨p, _, hf⟩ := List.mem_filterMap.mp h1
  unfold searchEntry at hf
  by_cases hd : p.2.deprecated
  · simp [hd] at hf
  · by_cases hs : 0 < entryScore (lowerStr query) p.2
    · simp only [hd, if_false, hs, if_true] at hf
      obtain rfl := Option.some_injective _ hf
      exact eq_false_of_ne_true hd
    · simp [hd, hs] at hf

/-- Witness for C9 at the one-tool registry `r1` and the empty query. -/
theorem search_never_returns_deprecated_witness :
    res1 ∈ r1.search "" 10 ∧ res1.metadata.deprecated = false := by
  have hmem : res1 ∈ r1.search "" 10 := by
    unfold ToolRegistry.search
    rw [lowerStr_empty]
    norm_num [r1, meta1, art1, res1, searchEntry, entryScore, strIn_empty,
      sortByScoreDesc, insertDesc, alGet, List.filterMap_cons,
      SearchResult.mk.injEq]
  exact ⟨hmem, search_never_returns_deprecated r1 "" 10 res1 hmem⟩

/-! ## Claim C1: search with the empty query -/

/-- Counterexample to claim C1 as stated: `r1` is a registry whose tools are
all non-deprecated, yet `search("")` returns a (non-empty) result for every
entry — in Python the empty string is a substring of every string, so every
non-deprecated entry scores `0.5 + 0.3 + 0.2·|tags| > 0`. -/
theorem search_empty_query_counterexample :
    (∀ p ∈ r1.tools, p.2.deprecated = false) ∧ (r1.search "" 10).length = 1 := by
  constructor
  · decide
  · unfold ToolRegistry.search
    rw [lowerStr_empty]
    norm_num [r1, meta1, art1, searchEntry, entryScore, strIn_empty,
      sortByScoreDesc, insertDesc, alGet, List.filterMap_cons]

/-- Claim C1 (amended): `search` with the empty query returns one result per
non-deprecated entry, truncated to `limit` — it enumerates the non-deprecated
registry rather than returning no matches. -/
theorem search_empty_query_returns_all (r : ToolRegistry) (limit : Nat) :
    (r.search "" limit).length =
      min limit (r.tools.filter (fun p => !p.2.deprecated)).length := by
  unfold ToolRegistry.search
  rw [lowerStr_empty, List.length_take, length_sortByScoreDesc]
  have key : ∀ l : List (String × ToolMetadata),
      (l.filterMap (searchEntry r.artifacts "")).length =
      (l.filter (fun p => !p.2.deprecated)).length := by
    intro l
    induction l with
    | nil => rfl
    | cons p ps ih =>
      by_cases hd : p.2.deprecated
      · simp [List.filterMap_cons, List.filter_cons, searchEntry, hd, ih]
      · have hs : 0 < entryScore "" p.2 := entryScore_empty_pos p.2
        simp [List.filterMap_cons, List.filter_cons, searchEntry, hd, hs, ih]
  rw [key r.tools]

/-! ## Claim C4: update_stats applies the EMA and increments usage_count -/

/-- Claim C4: one `update_stats(id, outcome)` call on a registered tool sets
`success_rate` to exactly `0.1·outcome + 0.9·old_rate` (outcome 1 for
success, 0 for failure) and increments `usage_count` by one; every other
metadata field is unchanged (the record equality fixes all fields). -/
theorem update_stats_ema (r : ToolRegistry) (tool_id : String) (success : Bool)
    (meta : ToolMetadata) (h : alGet r.tools tool_id = some meta) :
    alGet (r.update_stats tool_id success).tools tool_id =
      some { meta with
             usage_count := meta.usage_count + 1
             success_rate :=
               1/10 * (if success then 1 else 0) + 9/10 * meta.success_rate } := by
  unfold ToolRegistry.update_stats
  rw [h]
  cases success with
  | true =>
    simp only [if_true, alGet_alSet_self, Option.some.injEq, ToolMetadata.mk.injEq,
      eq_self_iff_true, and_true, true_and]
    ring
  | false =>
    simp only [Bool.false_eq_true, if_false, alGet_alSet_self, Option.some.injEq,
      ToolMetadata.mk.injEq, eq_self_iff_true, and_true, true_and]
    ring

/-- Witness for C4 at the one-tool registry `r1`. -/
theorem update_stats_ema_witness :
    alGet ((r1.update_stats "csv_parse_1.0" true).tools) "csv_parse_1.0" =
      some { meta1 with
             usage_count := meta1.usage_count + 1
             success_rate :=
               1/10 * (if true then 1 else 0) + 9/10 * meta1.success_rate } :=
  update_stats_ema r1 "csv_parse_1.0" true meta1 rfl

/-! ## Claim C8: register/get round trip -/

/-- Counterexample to claim C8 as stated: `owner` is a metadata field mutated
by neither `update_stats` nor `deprecate`, yet registering a mapping with
`owner = "alice"` and reading it back yields `owner = "system"` — `register`
carries over only `name`, `description`, `io_spec` and `tags`. -/
theorem register_drops_owner_counterexample :
    minput8.owner = some "alice" ∧
    (reg8.1.get reg8.2).map (fun rec => rec.metadata.owner) = some "system" ∧
    ("system" : String) ≠ "alice" := by
  refine ⟨rfl, ?_, by decide⟩
  rfl

/-- Claim C8 (amended): `register` returns `id = name + "_" + version`
(`name` defaulting to `"tool"` when absent), and a subsequent `get(id)`
returns the stored artifact together with metadata that agrees with the
registered mapping exactly on `name`, `description`, `io_spec` and `tags`
(with defaults `""`, `""`, `{}`, `[]` when absent); every other field takes
its dataclass default (`owner = "system"`, `success_rate = 1.0`,
`usage_count = 0`, `deprecated = false`, `deprecation_date = None`, limits
and scopes at their defaults, `created_at` the registration time) regardless
of the registered mapping. -/
theorem register_get_roundtrip (r : ToolRegistry) (artifact : Artifact)
    (metadata : MetaInput) (version now : String) :
    (r.register artifact metadata version now).2 =
      metadata.name.getD "tool" ++ "_" ++ version ∧
    (r.register artifact metadata version now).1.get
        ((r.register artifact metadata version now).2) =
      some { id := metadata.name.getD "tool" ++ "_" ++ version
             metadata :=
               { id := metadata.name.getD "tool" ++ "_" ++ version
                 name := metadata.name.getD ""
                 version := version
                 description := metadata.description.getD ""
                 io_spec := metadata.io_spec.getD []
                 tags := metadata.tags.getD []
                 created_at := now }
             artifact := artifact
             tool_id := metadata.name.getD "tool" ++ "_" ++ version
             code := artifact.code.getD "" } := by
  unfold ToolRegistry.register ToolRegistry.get
  simp [alGet_alSet_self]

/-! ## Claim C10: get still returns the full record after deprecate -/

/-- Claim C10: for a registered id, `deprecate` succeeds (returns `true`) and
a subsequent `get(id)` still returns the full capability record — the stored
metadata with the deprecation flag and date set, the artifact, and its code —
and the entry is still listed by `list_all(include_deprecated := true)`. -/
theorem get_after_deprecate (r : ToolRegistry) (tool_id now : String)
    (meta : ToolMetadata) (h : alGet r.tools tool_id = some meta) :
    (r.deprecate tool_id now).2 = true ∧
    (r.deprecate tool_id now).1.get tool_id =
      some { id := tool_id
             metadata :=
               { meta with deprecated := true, deprecation_date := some now }
             artifact := (alGet r.artifacts tool_id).getD {}
             tool_id := tool_id
             code := ((alGet r.artifacts tool_id).getD {}).code.getD "" } ∧
    (tool_id, { meta with deprecated := true, deprecation_date := some now }) ∈
      (r.deprecate tool_id now).1.list_all true := by
  unfold ToolRegistry.deprecate ToolRegistry.get ToolRegistry.list_all
  rw [h]
  refine ⟨rfl, ?_, ?_⟩
  · simp [alGet_alSet_self]
  · simp only [Bool.true_or, List.filter_true]
    exact mem_alSet_of_alGet_some _ h

/-- Witness for C10 at the one-tool registry `r1`. -/
theorem get_after_deprecate_witness :
    (r1.deprecate "csv_parse_1.0" "2024-02-02T00:00:00").2 = true ∧
    (r1.deprecate "csv_parse_1.0" "2024-02-02T00:00:00").1.get "csv_parse_1.0" =
      some { id := "csv_parse_1.0"
             metadata :=
               { meta1 with deprecated := true
                            deprecation_date := some "2024-02-02T00:00:00" }
             artifact := (alGet r1.artifacts "csv_parse_1.0").getD {}
             tool_id := "csv_parse_1.0"
             code := ((alGet r1.artifacts "csv_parse_1.0").getD {}).code.getD "" } ∧
    ("csv_parse_1.0",
      { meta1 with deprecated := true
                   deprecation_date := some "2024-02-02T00:00:00" }) ∈
      (r1.deprecate "csv_parse_1.0" "2024-02-02T00:00:00").1.list_all true :=
  get_after_deprecate r1 "csv_parse_1.0" "2024-02-02T00:00:00" meta1 rfl

/-! ## Claim C2: always-dangerous imports are policy blockers -/

theorem add_finding_pres (r : ValidationResult) (sev cat msg : String)
    (line : Option Nat)
    (h : r.passed = false ∧ ∃ f ∈ r.blockers, f.category = "policy") :
    (r.add_finding sev cat msg line).passed = false ∧
    ∃ f ∈ (r.add_finding sev cat msg line).blockers, f.category = "policy" := by
  obtain ⟨h1, f, hf, hcat⟩ := h
  unfold ValidationResult.add_finding
  by_cases hs : sev = "critical" ∨ sev = "high"
  · simp only [hs, if_true]
    exact ⟨by trivial, f, List.mem_append_left _ hf, hcat⟩
  · simp only [hs, if_false]
    exact ⟨h1, f, hf, hcat⟩

theorem add_finding_critical_policy (r : ValidationResult) (msg : String)
    (line : Option Nat) :
    (r.add_finding "critical" "policy" msg line).passed = false ∧
    ∃ f ∈ (r.add_finding "critical" "policy" msg line).blockers,
      f.category = "policy" := by
  unfold ValidationResult.add_finding
  rw [if_pos (Or.inl rfl)]
  refine ⟨rfl, ?_⟩
  exact ⟨{ severity := "critical", category := "policy", message := msg, line := line },
    List.mem_append_right _ (List.mem_singleton.mpr rfl), rfl⟩

theorem check_import_pres (v : StaticValidator) (module : String)
    (r : ValidationResult) (line : Nat)
    (h : r.passed = false ∧ ∃ f ∈ r.blockers, f.category = "policy") :
    (v.check_import module r line).passed = false ∧
    ∃ f ∈ (v.check_import module r line).blockers, f.category = "policy" := by
  unfold StaticValidator.check_import
  by_cases h1 : baseModule module ∈ v.dangerous_imports
  · simp only [h1, if_true]
    exact add_finding_pres _ _ _ _ _ h
  · rw [if_neg h1]
    by_cases h2 : baseModule module ∈ v.allowed_imports
    · rw [if_neg (not_not_intro h2)]
      exact h
    · rw [if_pos h2]
      exact add_finding_pres _ _ _ _ _ h

theorem check_import_dangerous (v : StaticValidator) (module : String)
    (r : ValidationResult) (line : Nat)
    (h : baseModule module ∈ StaticValidator.always_dangerous) :
    (v.check_import module r line).passed = false ∧
    ∃ f ∈ (v.check_import module r line).blockers, f.category = "policy" := by
  have hd : baseModule module ∈ v.dangerous_imports := by
    unfold StaticValidator.dangerous_imports
    by_cases hn : v.allow_network
    · simp [hn, h]
    · simp only [hn, if_false]
      exact List.mem_append_left _ h
  unfold StaticValidator.check_import
  simp only [hd, if_true]
  exact add_finding_critical_policy _ _ _

theorem foldl_check_import_pres (v : StaticValidator) (names : List String)
    (r : ValidationResult) (line : Nat)
    (h : r.passed = false ∧ ∃ f ∈ r.blockers, f.category = "policy") :
    (names.foldl (fun res nm => v.check_import nm res line) r).passed = false ∧
    ∃ f ∈ (names.foldl (fun res nm => v.check_import nm res line) r).blockers,
      f.category = "policy" := by
  induction names generalizing r with
  | nil => exact h
  | cons nm rest ih => exact ih _ (check_import_pres v nm r line h)

theorem policyNode_pres (v : StaticValidator) (r : ValidationResult)
    (node : PyNode)
    (h : r.passed = false ∧ ∃ f ∈ r.blockers, f.category = "policy") :
    (v.policyNode r node).passed = false ∧
    ∃ f ∈ (v.policyNode r node).blockers, f.category = "policy" := by
  cases node with
  | importName names lineno => exact foldl_check_import_pres v names r lineno h
  | importFrom m lineno =>
    cases m with
    | none => exact h
    | some mod => exact check_import_pres v mod r lineno h
  | call fid lineno =>
    cases fid with
    | none => exact h
    | some f =>
      unfold StaticValidator.policyNode
      by_cases hf : f ∈ ["eval", "exec", "compile", "__import__"]
      · simp only [hf, if_true]
        exact add_finding_pres _ _ _ _ _ h
      · simp only [hf, if_false]
        exact h
  | attributeNode a lineno => exact h
  | other => exact h

theorem foldl_check_import_dangerous (v : StaticValidator) (names : List String)
    (r : ValidationResult) (line : Nat)
    (h : ∃ nm ∈ names, baseModule nm ∈ StaticValidator.always_dangerous) :
    (names.foldl (fun res nm => v.check_import nm res line) r).passed = false ∧
    ∃ f ∈ (names.foldl (fun res nm => v.check_import nm res line) r).blockers,
      f.category = "policy" := by
  revert h
  induction names generalizing r with
  | nil =>
    intro h
    obtain ⟨nm, hnm, _⟩ := h
    simp at hnm
  | cons a rest ih =>
    intro h
    obtain ⟨nm, hnm, hdang⟩ := h
    rcases List.mem_cons.mp hnm with heq | htail
    · subst heq
      exact foldl_check_import_pres v rest _ line
        (check_import_dangerous v nm r line hdang)
    · exact ih (v.check_import a r line) ⟨nm, htail, hdang⟩

theorem policyNode_dangerous (v : StaticValidator) (r : ValidationResult)
    (node : PyNode) (h : isAlwaysDangerousImport node = true) :
    (v.policyNode r node).passed = false ∧
    ∃ f ∈ (v.policyNode r node).blockers, f.category = "policy" := by
  cases node with
  | importName names lineno =>
    unfold isAlwaysDangerousImport at h
    rw [List.any_eq_true] at h
    obtain ⟨nm, hnm, hdang⟩ := h
    rw [decide_eq_true_iff] at hdang
    exact foldl_check_import_dangerous v names r lineno ⟨nm, hnm, hdang⟩
  | importFrom m lineno =>
    cases m with
    | none => simp [isAlwaysDangerousImport] at h
    | some mod =>
      unfold isAlwaysDangerousImport at h
      rw [decide_eq_true_iff] at h
      exact check_import_dangerous v mod r lineno h
  | call fid lineno => simp [isAlwaysDangerousImport] at h
  | attributeNode a lineno => simp [isAlwaysDangerousImport] at h
  | other => simp [isAlwaysDangerousImport] at h

theorem validate_policy_pres (v : StaticValidator) (nodes : List PyNode)
    (r : ValidationResult)
    (h : r.passed = false ∧ ∃ f ∈ r.blockers, f.category = "policy") :
    (v.validate_policy nodes r).passed = false ∧
    ∃ f ∈ (v.validate_policy nodes r).blockers, f.category = "policy" := by
  unfold StaticValidator.validate_policy
  induction nodes generalizing r with
  | nil => exact h
  | cons n ns ih => exact ih _ (policyNode_pres v r n h)

theorem validate_policy_dangerous (v : StaticValidator) (nodes : List PyNode)
    (r : ValidationResult)
    (h : ∃ n ∈ nodes, isAlwaysDangerousImport n = true) :
    (v.validate_policy nodes r).passed = false ∧
    ∃ f ∈ (v.validate_policy nodes r).blockers, f.category = "policy" := by
  unfold StaticValidator.validate_policy
  revert h
  induction nodes generalizing r with
  | nil =>
    intro h
    obtain ⟨n, hn, _⟩ := h
    simp at hn
  | cons m ms ih =>
    intro h
    obtain ⟨n, hn, hdang⟩ := h
    rcases List.mem_cons.mp hn with heq | htail
    · subst heq
      have h0 := policyNode_dangerous v r n hdang
      exact validate_policy_pres v ms _ h0
    · exact ih (v.policyNode r m) ⟨n, htail, hdang⟩

theorem securityNode_pres (r : ValidationResult) (node : PyNode)
    (h : r.passed = false ∧ ∃ f ∈ r.blockers, f.category = "policy") :
    (securityNode r node).passed = false ∧
    ∃ f ∈ (securityNode r node).blockers, f.category = "policy" := by
  cases node with
  | call fid lineno =>
    cases fid with
    | none => exact h
    | some f =>
      show (if f = "open" ∨ f = "file" then
              r.add_finding "high" "security"
                "File operations detected - ensure proper sandboxing" (some lineno)
            else r).passed = false ∧
           ∃ g ∈ (if f = "open" ∨ f = "file" then
              r.add_finding "high" "security"
                "File operations detected - ensure proper sandboxing" (some lineno)
            else r).blockers, g.category = "policy"
      by_cases hf : f = "open" ∨ f = "file"
      · rw [if_pos hf]
        exact add_finding_pres _ _ _ _ _ h
      · rw [if_neg hf]
        exact h
  | attributeNode attr lineno =>
    show (if attr ∈ ["urlopen", "get", "post", "request"] then
            r.add_finding "high" "security" "Network operation detected" (some lineno)
          else r).passed = false ∧
         ∃ g ∈ (if attr ∈ ["urlopen", "get", "post", "request"] then
            r.add_finding "high" "security" "Network operation detected" (some lineno)
          else r).blockers, g.category = "policy"
    by_cases ha : attr ∈ ["urlopen", "get", "post", "request"]
    · rw [if_pos ha]
      exact add_finding_pres _ _ _ _ _ h
    · rw [if_neg ha]
      exact h
  | importName names lineno => exact h
  | importFrom m lineno => exact h
  | other => exact h

theorem validate_security_pres (nodes : List PyNode) (r : ValidationResult)
    (h : r.passed = false ∧ ∃ f ∈ r.blockers, f.category = "policy") :
    (validate_security nodes r).passed = false ∧
    ∃ f ∈ (validate_security nodes r).blockers, f.category = "policy" := by
  unfold validate_security
  induction nodes generalizing r with
  | nil => exact h
  | cons n ns ih => exact ih _ (securityNode_pres r n h)

theorem validate_safety_pres (text : String) (r : ValidationResult)
    (h : r.passed = false ∧ ∃ f ∈ r.blockers, f.category = "policy") :
    (validate_safety text r).passed = false ∧
    ∃ f ∈ (validate_safety text r).blockers, f.category = "policy" := by
  unfold validate_safety
  by_cases h1 : 10000 < text.data.length
  · rw [if_pos h1]
    by_cases h2 : (strIn "while True:" text && !strIn "break" text) = true
    · rw [if_pos h2]
      exact add_finding_pres _ _ _ _ _ (add_finding_pres _ _ _ _ _ h)
    · rw [if_neg h2]
      exact add_finding_pres _ _ _ _ _ h
  · rw [if_neg h1]
    by_cases h2 : (strIn "while True:" text && !strIn "break" text) = true
    · rw [if_pos h2]
      exact add_finding_pres _ _ _ _ _ h
    · rw [if_neg h2]
      exact h

/-- Claim C2: for every validator configuration and every code string that
parses and contains an import (plain or from-import) whose base module is in
the always-dangerous set, `validate(code)` returns a result with
`passed = false` and at least one blocker of category `policy`. -/
theorem validate_rejects_dangerous (v : StaticValidator) (code : PyCode)
    (nodes : List PyNode) (hparse : code.parsed = .ok nodes)
    (hdanger : ∃ n ∈ nodes, isAlwaysDangerousImport n = true) :
    (v.validate code).passed = false ∧
    ∃ f ∈ (v.validate code).blockers, f.category = "policy" := by
  unfold StaticValidator.validate
  rw [hparse]
  exact validate_safety_pres _ _
    (validate_security_pres _ _ (validate_policy_dangerous v nodes {} hdanger))

/-- Witness for C2 on `import os`. -/
theorem validate_rejects_dangerous_witness :
    (validator0.validate code2).passed = false ∧
    ∃ f ∈ (validator0.validate code2).blockers, f.category = "policy" :=
  validate_rejects_dangerous validator0 code2 [PyNode.importName ["os"] 1]
    rfl (by decide)

/-! ## Claim C3: retry guard -/

/-- Claim C3: `can_retry` is true iff `retry_count < max_retries`; and any
`handle_request` call made with `retry_count ≥ max_retries` returns a
`degraded` response (so never an `error` one) having performed no pipeline
step — no planning, search, synthesis, execution, verification or learning. -/
theorem can_retry_iff_and_guard (s : AgentState) (env : ControllerEnv)
    (fuel : Nat) (req : Request) :
    (s.can_retry = true ↔ s.retry_count < s.max_retries) ∧
    (s.max_retries ≤ s.retry_count →
      (handleRequest env fuel s req).1.status = "degraded" ∧
      (handleRequest env fuel s req).2.2 = []) := by
  constructor
  · simp [AgentState.can_retry]
  · intro h
    rw [handleRequest.eq_def]
    rw [if_pos h]
    exact ⟨rfl, rfl⟩

/-- Witness for C3: a state with `retry_count = max_retries = 3` against the
stub environment. -/
theorem can_retry_iff_and_guard_witness :
    st3.max_retries ≤ st3.retry_count ∧
    (handleRequest stubEnv 4 st3 req0).1.status = "degraded" ∧
    (handleRequest stubEnv 4 st3 req0).2.2 = [] :=
  ⟨by decide, (can_retry_iff_and_guard st3 stubEnv 4 req0).2 (by decide)⟩

/-! ## Claim C5: execute converts exceptions to error results -/

/-- Claim C5: `SandboxExecutor.execute` is total (it never propagates an
exception), and any exception raised while preparing the environment
(`mkdtemp` or writing the tool code), creating the execution script, or
launching/awaiting the process is converted to a result with
`status = "error"` carrying the exception's message. -/
theorem execute_catches_exceptions (env : SandboxEnv) (policy : SandboxPolicy)
    (msg : String)
    (h : env.prep = .mkdtempFails msg ∨ env.prep = .writeFails msg ∨
         (env.prep = .ok ∧ env.createScript = .error msg) ∨
         (env.prep = .ok ∧ env.createScript = Except.ok () ∧
           env.proc = .raises msg)) :
    pyGet (Sandbox.execute env policy).result "status" = some (.str "error") ∧
    pyGet (Sandbox.execute env policy).result "error" = some (.str msg) := by
  rcases h with h | h | ⟨h1, h2⟩ | ⟨h1, h2, h3⟩
  · simp only [Sandbox.execute, h]
    exact ⟨by trivial, by trivial⟩
  · simp only [Sandbox.execute, h]
    exact ⟨by trivial, by trivial⟩
  · simp only [Sandbox.execute, h1, h2]
    exact ⟨by trivial, by trivial⟩
  · simp only [Sandbox.execute, executeWithLimits, h1, h2, h3]
    exact ⟨by trivial, by trivial⟩

/-- Witness for C5: `mkdtemp` raising `Permission denied`. -/
theorem execute_catches_exceptions_witness :
    pyGet (Sandbox.execute env5 policy0).result "status" = some (.str "error") ∧
    pyGet (Sandbox.execute env5 policy0).result "error" =
      some (.str "Permission denied") :=
  execute_catches_exceptions env5 policy0 "Permission denied" (Or.inl rfl)

/-! ## Claim C6: cleanup of the working directory -/

/-- Counterexample to claim C6 as stated: when writing the execution script
raises after the per-execution directory was created, `execute` returns an
error result but the directory is not removed — there is no
finally-style cleanup on the exception path. -/
theorem cleanup_skipped_counterexample :
    (Sandbox.execute env6 policy0).dirCreated = true ∧
    (Sandbox.execute env6 policy0).dirRemoved = false ∧
    pyGet (Sandbox.execute env6 policy0).result "status" = some (.str "error") :=
  ⟨rfl, rfl, rfl⟩

/-- Claim C6 (amended): `_cleanup` is reached exactly on the paths where
environment preparation and script creation return normally (the run step
catches its own exceptions, so success, error and timeout results all reach
cleanup); on the exception paths after the directory exists it is left in
place, and even when cleanup is attempted the directory is removed only if
`rmtree` itself succeeds (its failures are swallowed). -/
theorem cleanup_on_normal_paths (env : SandboxEnv) (policy : SandboxPolicy) :
    ((Sandbox.execute env policy).cleanupAttempted = true ↔
      env.prep = .ok ∧ env.createScript = Except.ok ()) ∧
    (Sandbox.execute env policy).dirRemoved =
      ((Sandbox.execute env policy).cleanupAttempted && env.rmtreeOk) := by
  rcases hp : env.prep with msg | msg | _
  · constructor
    · simp [Sandbox.execute, hp]
    · simp [Sandbox.execute, hp]
  · constructor
    · simp [Sandbox.execute, hp]
    · simp [Sandbox.execute, hp]
  · rcases hs : env.createScript with e | u
    · constructor
      · simp [Sandbox.execute, hp, hs]
      · simp [Sandbox.execute, hp, hs]
    · cases u
      constructor
      · simp [Sandbox.execute, hp, hs]
      · simp [Sandbox.execute, hp, hs]

/-! ## Claim C7: timeout handling -/

/-- Claim C7: when the sandboxed process does not finish within the policy's
wall-time limit, it is forcibly killed and `execute` returns a result with
`status = "timeout"` carrying the stdout/stderr captured so far. -/
theorem timeout_kills_and_reports (env : SandboxEnv) (policy : SandboxPolicy)
    (out err : String) (hprep : env.prep = .ok)
    (hscript : env.createScript = Except.ok ())
    (hproc : env.proc = .timesOut out err) :
    pyGet (Sandbox.execute env policy).result "status" = some (.str "timeout") ∧
    (Sandbox.execute env policy).killed = true ∧
    pyGet (Sandbox.execute env policy).result "stdout" = some (.str out) ∧
    pyGet (Sandbox.execute env policy).result "stderr" = some (.str err) := by
  simp only [Sandbox.execute, executeWithLimits, hprep, hscript, hproc]
  refine ⟨?_, ?_, ?_, ?_⟩ <;> trivial

/-- Witness for C7: a run that exceeds the wall-time limit with partial
output captured. -/
theorem timeout_kills_and_reports_witness :
    pyGet (Sandbox.execute env7 policy0).result "status" = some (.str "timeout") ∧
    (Sandbox.execute env7 policy0).killed = true ∧
    pyGet (Sandbox.execute env7 policy0).result "stdout" =
      some (.str "partial stdout") ∧
    pyGet (Sandbox.execute env7 policy0).result "stderr" =
      some (.str "partial stderr") :=
  timeout_kills_and_reports env7 policy0 "partial stdout" "partial stderr"
    rfl rfl rfl

end EvoMind
